import Mathlib

/-!
# Verification of the agent-arena orchestration core

Shallow embedding, in Lean 4, of the parts of `plugins/arena/scripts/`
(utils.py, models.py, parsers.py, hitl.py, genflow_config.py, arena.py,
genflow.py) that the design-level claims are about, together with proofs
settling each claim.

Conventions:
* Python dicts that carry structured data are modelled either as Lean
  structures (when the code constructs them with a fixed shape) or as
  association lists `List (String × _)` (when the code does dynamic
  `d.get(...)` lookups).
* External library primitives (difflib's `SequenceMatcher.ratio`) are
  taken as parameters; their documented properties (`ratio s s = 1`)
  appear as hypotheses where a claim needs them.
* `hashlib.sha256` is implemented bit-faithfully over `Nat` with explicit
  `% 2^32` arithmetic, so that file-archival naming can be evaluated.
* Fallible operations return `Except`/`Option`.
-/

namespace Arena

/-! ## Filesystem model

A filesystem is a finite map from path strings to file contents.  Used to
model `utils.write_text_atomic` (claim C1) and the HITL answer-file
protocol (claim C9). -/

structure FS where
  files : String → Option String

/-- Point update of the filesystem (create/overwrite when `v = some _`,
delete when `v = none`). -/
def FS.set (fs : FS) (p : String) (v : Option String) : FS :=
  ⟨fun q => if q = p then v else fs.files q⟩

@[simp] theorem FS.set_same (fs : FS) (p : String) (v : Option String) :
    (fs.set p v).files p = v := by
  simp [FS.set]

@[simp] theorem FS.set_other (fs : FS) (p q : String) (v : Option String)
    (h : q ≠ p) : (fs.set p v).files q = fs.files q := by
  simp [FS.set, h]

/-! ## `utils.write_text_atomic` (utils.py lines 68-81)

```python
def write_text_atomic(path: Path, text: str) -> None:
    path.parent.mkdir(parents=True, exist_ok=True)
    fd, tmp_path = tempfile.mkstemp(dir=path.parent, prefix=f".{path.name}.")
    try:
        with os.fdopen(fd, "w", encoding="utf-8") as f:
            f.write(text)
            f.flush()
            os.fsync(f.fileno())
        os.rename(tmp_path, path)
    except Exception:
        if os.path.exists(tmp_path):
            os.unlink(tmp_path)
        raise
```

The embedding makes I/O failure injection explicit: a `FailPoint` says
which operation inside the `try` block raises.  A failing write may leave
arbitrary partial text in the temporary file before the handler removes
it.  `mkstemp` yields a fresh sibling name `tmp` distinct from the
destination (its basename is prefixed with a dot and suffixed with random
characters), which the theorems take as the hypothesis `tmp ≠ p`. -/

inductive FailPoint where
  /-- no operation raises -/
  | noFail
  /-- `f.write`/`f.flush` raises after writing a prefix of the text -/
  | atWrite (partialText : String)
  /-- `os.fsync` raises (text fully written to the temp file) -/
  | atFsync
  /-- `os.rename` raises -/
  | atRename

/-- Result: `.ok fs'` when the call returns normally, `.error fs'` when it
raises (after the `except` handler has run). -/
def writeTextAtomic (fp : FailPoint) (p tmp t : String) (fs : FS) :
    Except FS FS :=
  -- mkstemp creates the (empty) temporary file
  let fs1 := fs.set tmp (some "")
  match fp with
  | .noFail =>
      let fs2 := fs1.set tmp (some t)
      .ok ((fs2.set tmp none).set p (some t))   -- os.rename tmp → p
  | .atWrite partialText =>
      let fs2 := fs1.set tmp (some partialText)
      .error (fs2.set tmp none)                 -- handler unlinks tmp
  | .atFsync =>
      let fs2 := fs1.set tmp (some t)
      .error (fs2.set tmp none)
  | .atRename =>
      let fs2 := fs1.set tmp (some t)
      .error (fs2.set tmp none)

/-- Every filesystem state the call passes through, in order (initial,
after `mkstemp`, after the writes, after rename/cleanup).  A concurrent
reader of `p`, or a process killed at an arbitrary point, observes one of
these states. -/
def writeTextAtomicTrace (fp : FailPoint) (p tmp t : String) (fs : FS) :
    List FS :=
  let fs1 := fs.set tmp (some "")
  match fp with
  | .noFail =>
      let fs2 := fs1.set tmp (some t)
      [fs, fs1, fs2, (fs2.set tmp none).set p (some t)]
  | .atWrite partialText =>
      let fs2 := fs1.set tmp (some partialText)
      [fs, fs1, fs2, fs2.set tmp none]
  | .atFsync =>
      let fs2 := fs1.set tmp (some t)
      [fs, fs1, fs2, fs2.set tmp none]
  | .atRename =>
      let fs2 := fs1.set tmp (some t)
      [fs, fs1, fs2, fs2.set tmp none]

/-- C1: if `write_text_atomic p t` raises due to an I/O error at any
injection point, the destination `p` is untouched and the temporary file
has been removed; if it returns normally, `p` holds exactly `t`; and
every intermediate state shows `p` with either its prior content or the
complete new content. -/
theorem writeTextAtomic_atomic (fp : FailPoint) (p tmp t : String)
    (fs : FS) (htmp : tmp ≠ p) :
    (match writeTextAtomic fp p tmp t fs with
     | .error fs' => fs'.files p = fs.files p ∧ fs'.files tmp = none
     | .ok fs' => fs'.files p = some t) ∧
    (∀ fsMid ∈ writeTextAtomicTrace fp p tmp t fs,
      fsMid.files p = fs.files p ∨ fsMid.files p = some t) := by
  have hp : p ≠ tmp := fun h => htmp h.symm
  cases fp <;>
    simp [writeTextAtomic, writeTextAtomicTrace, FS.set_same,
      FS.set_other _ _ _ _ hp]

/-- Witness for C1: concrete run on a filesystem where the destination
holds old content, failing at rename. -/
theorem writeTextAtomic_atomic_witness :
    (".state.json.k1x" ≠ "state.json") ∧
    ((match writeTextAtomic .atRename "state.json" ".state.json.k1x" "new"
        ⟨fun q => if q = "state.json" then some "old" else none⟩ with
      | .error fs' =>
          fs'.files "state.json" =
            (⟨fun q => if q = "state.json" then some "old" else none⟩ :
              FS).files "state.json" ∧
          fs'.files ".state.json.k1x" = none
      | .ok fs' => fs'.files "state.json" = some "new") ∧
     (∀ fsMid ∈ writeTextAtomicTrace .atRename "state.json"
          ".state.json.k1x" "new"
          ⟨fun q => if q = "state.json" then some "old" else none⟩,
        fsMid.files "state.json" =
          (⟨fun q => if q = "state.json" then some "old" else none⟩ :
            FS).files "state.json" ∨
        fsMid.files "state.json" = some "new")) :=
  ⟨by decide,
   writeTextAtomic_atomic .atRename "state.json" ".state.json.k1x" "new"
     ⟨fun q => if q = "state.json" then some "old" else none⟩ (by decide)⟩

/-! ## Result models (models.py)

`Envelope` (models.py lines 67-111): the structured reply of one agent
turn.  `questions`/`objections` carry dict payloads the claims never
inspect, so they are kept as opaque strings; `artifacts` keeps the
`art.get("path", "")` string of each artifact dict, which is the only
field `validate_artifacts` reads. -/

structure Envelope where
  status : String
  message : String
  questions : List String := []
  artifacts : List String := []
  confidence : Option ℚ := none
  objections : List String := []
  agrees_with : List String := []
  research_topics : List String := []

/-- `CritiqueIssue` (models.py lines 195-204). -/
structure CritiqueIssue where
  id : String
  rule_id : String
  severity : String
  location : String
  finding : String
  evidence : String
  suggested_fix : Option String := none
  confidence : ℚ := 9/10
  deriving DecidableEq

/-- `Critique` (models.py lines 208-264).  `approved_sections` is a list
of string-to-string dicts, passed through serialisation untouched. -/
structure Critique where
  constraint_id : String
  reviewer : String
  iteration : Int
  overall : String
  issues : List CritiqueIssue
  approved_sections : List (List (String × String))
  summary : String
  deriving DecidableEq

/-- `AdjudicationDecision` (models.py lines 267-278). -/
structure AdjudicationDecision where
  issue_id : String
  constraint : String
  severity : String
  status : String
  flagged_by : List String := []
  competing_constraint : Option String := none
  adjudication : Option String := none
  rationale : Option String := none
  guidance : Option String := none

/-- `Adjudication` (models.py lines 281-342).  `tension_analysis` holds
string-dict payloads the claims never inspect. -/
structure Adjudication where
  iteration : Int
  status : String
  tension_analysis : List (List (String × String)) := []
  decisions : List AdjudicationDecision
  bill_of_work : String
  critical_pursuing : Int := 0
  high_pursuing : Int := 0

/-! ## Text normalisation and similarity (utils.py lines 110-122)

```python
def normalize_for_hash(s: str) -> str:
    return " ".join(s.strip().lower().split())

def text_similarity(a: str, b: str) -> float:
    return SequenceMatcher(None, normalize_for_hash(a), normalize_for_hash(b)).ratio()
```

`difflib.SequenceMatcher.ratio` is a standard-library primitive; it is
taken as a parameter `ratio : String → String → ℚ`.  Its documented
property `ratio s s = 1` (identical sequences have similarity 1.0) is a
hypothesis where a claim needs it. -/

/-- ASCII case folding, as Python's `str.upper`/`str.lower` act on the
ASCII identifiers and severity names this system compares (kept
executable; core `String.toUpper` does not reduce in the kernel). -/
def pyUpperChar (c : Char) : Char :=
  if 'a' ≤ c && c ≤ 'z' then Char.ofNat (c.toNat - 32) else c

def pyLowerChar (c : Char) : Char :=
  if 'A' ≤ c && c ≤ 'Z' then Char.ofNat (c.toNat + 32) else c

def pyUpper (s : String) : String := ⟨s.data.map pyUpperChar⟩

def pyLower (s : String) : String := ⟨s.data.map pyLowerChar⟩

/-- The whitespace class of Python's `str.strip()`/`str.split()`. -/
def isPySpace (c : Char) : Bool :=
  c == ' ' || c == '\t' || c == '\n' || c == '\r' ||
  c == '\u000b' || c == '\u000c'

/-- `str.strip()`. -/
def pyStrip (s : String) : String :=
  ⟨((s.data.dropWhile isPySpace).reverse.dropWhile isPySpace).reverse⟩

/-- `str.split()` with no separator: maximal runs of non-whitespace. -/
def pySplitWsAux : List Char → List Char → List String
  | [], acc => if acc.isEmpty then [] else [⟨acc.reverse⟩]
  | c :: cs, acc =>
    if isPySpace c then
      if acc.isEmpty then pySplitWsAux cs []
      else (⟨acc.reverse⟩ : String) :: pySplitWsAux cs []
    else pySplitWsAux cs (c :: acc)

def pySplitWs (s : String) : List String := pySplitWsAux s.data []

/-- `" ".join(s.strip().lower().split())`. -/
def normalizeForHash (s : String) : String :=
  String.intercalate " " (pySplitWs (pyLower (pyStrip s)))

def textSimilarity (ratioFn : String → String → ℚ) (a b : String) : ℚ :=
  ratioFn (normalizeForHash a) (normalizeForHash b)

/-! ## `detect_stagnation` (arena.py lines 938-965) -/

/-- One record of `thread.jsonl` as `detect_stagnation` reads it:
`entry.get("agent", "")` and `entry.get("content", "")`. -/
structure ThreadEntry where
  agent : String
  content : String

/-- The up-to-two most recent messages of agent `a` (most recent first),
collected by the `for entry in reversed(thread_tail)` loop; agents not in
the participant list collect nothing. -/
def agentMsgs (tail : List ThreadEntry) (agents : List String) (a : String) :
    List String :=
  if agents.contains a then
    ((tail.reverse.filter (fun e => e.agent == a)).map (fun e => e.content)).take 2
  else []

/-- `agents_with_history`: distinct participants that collected at least
two messages. -/
def agentsWithHistory (tail : List ThreadEntry) (agents : List String) :
    List String :=
  agents.dedup.filter (fun a => 2 ≤ (agentMsgs tail agents a).length)

/-- Per-agent check of the loop body: `sim < threshold` returns `False`,
so an agent passes when its two most recent messages have similarity at
or above the threshold. -/
def agentPairSimilar (ratioFn : String → String → ℚ) (tail : List ThreadEntry)
    (agents : List String) (threshold : ℚ) (a : String) : Bool :=
  match agentMsgs tail agents a with
  | m0 :: m1 :: _ => !(textSimilarity ratioFn m0 m1 < threshold)
  | _ => true

def detectStagnation (ratioFn : String → String → ℚ) (tail : List ThreadEntry)
    (agents : List String) (threshold : ℚ) : Bool :=
  if agents.length < 2 then false
  else if (agentsWithHistory tail agents).length < 2 then false
  else (agentsWithHistory tail agents).all
    (agentPairSimilar ratioFn tail agents threshold)

/-! ## `check_consensus` (arena.py lines 968-993)

Envelopes arrive as a `Dict[str, Envelope]`; Python dicts iterate in
insertion order, so the embedding uses an association list. -/

def badStatus (env : Envelope) : Bool :=
  env.status == "error" || env.status == "needs_human"

/-- The explicit-agreement test of the first loop:
`len((set(agrees_with) | {agent}) & set(agents)) >= min_agree`, guarded
by `if env.agrees_with:`. -/
def agreementTriggers (agents : List String) (minAgree : Nat) (a : String)
    (env : Envelope) : Bool :=
  !env.agrees_with.isEmpty &&
    decide (minAgree ≤
      ((env.agrees_with ++ [a]).dedup.filter (fun x => agents.contains x)).length)

/-- The first loop of `check_consensus`: `some b` is an early `return b`,
`none` means fall through to the similarity fallback. -/
def consensusScan (agents : List String) (minAgree : Nat) :
    List (String × Envelope) → Option Bool
  | [] => none
  | (a, env) :: rest =>
    if badStatus env then some false
    else if agreementTriggers agents minAgree a env then some true
    else consensusScan agents minAgree rest

/-- The pairwise message-similarity fallback (`> 0.85` clusters). -/
def consensusSimFallback (ratioFn : String → String → ℚ)
    (envelopes : List (String × Envelope)) (minAgree : Nat) : Bool :=
  let indexed := (envelopes.map (fun p => p.2.message)).enum
  indexed.any (fun im =>
    decide (minAgree ≤ 1 +
      (indexed.filter (fun jm =>
        jm.1 != im.1 && ((85 : ℚ)/100) < textSimilarity ratioFn im.2 jm.2)).length))

def checkConsensus (ratioFn : String → String → ℚ)
    (envelopes : List (String × Envelope)) (minAgree : Nat) : Bool :=
  if (envelopes.map Prod.fst).length < 2 then false
  else
    match consensusScan (envelopes.map Prod.fst) minAgree envelopes with
    | some b => b
    | none => consensusSimFallback ratioFn envelopes minAgree

/-- The first loop returns `False` at the earliest envelope with status
`error`/`needs_human`, provided the envelopes before it neither returned
early themselves. -/
theorem consensusScan_error (agents : List String) (minAgree : Nat)
    (pre post : List (String × Envelope)) (a : String) (env : Envelope)
    (hbad : badStatus env = true)
    (hpre : ∀ p ∈ pre, badStatus p.2 = true ∨
        agreementTriggers agents minAgree p.1 p.2 = false) :
    consensusScan agents minAgree (pre ++ (a, env) :: post) = some false := by
  induction pre with
  | nil => simp [consensusScan, hbad]
  | cons p rest ih =>
    obtain ⟨pa, pe⟩ := p
    rcases hpre ⟨pa, pe⟩ (by simp) with h | h
    · simp [consensusScan, h]
    · have hrec := ih (fun q hq => hpre q (by simp [hq]))
      by_cases hb : badStatus pe = true
      · simp [consensusScan, hb]
      · simp only [Bool.not_eq_true] at hb
        simp [consensusScan, hb, h, hrec]

/-- C3 (amended): `check_consensus` returns false whenever some envelope
has status `error` or `needs_human` and every envelope earlier in the
mapping's iteration order either also has such a status or fails the
explicit-agreement min-agree test — pairwise message similarity is never
consulted.  (The original claim — false for *any* position of the error
envelope — is refuted by `checkConsensus_error_after_agreement`.) -/
theorem checkConsensus_error_blocks (ratioFn : String → String → ℚ)
    (pre post : List (String × Envelope)) (a : String) (env : Envelope)
    (minAgree : Nat) (hbad : badStatus env = true)
    (hpre : ∀ p ∈ pre, badStatus p.2 = true ∨
        agreementTriggers ((pre ++ (a, env) :: post).map Prod.fst) minAgree
          p.1 p.2 = false) :
    checkConsensus ratioFn (pre ++ (a, env) :: post) minAgree = false := by
  unfold checkConsensus
  rw [consensusScan_error _ _ _ _ _ _ hbad hpre]
  simp

/-- Witness for C3 (amended): a two-agent mapping whose first envelope
declares no agreement and whose second has status `error`. -/
theorem checkConsensus_error_blocks_witness :
    checkConsensus (fun _ _ => (0 : ℚ))
      [("alpha", { status := "ok", message := "plan A" }),
       ("beta", { status := "error", message := "boom" })] 2 = false :=
  checkConsensus_error_blocks (fun _ _ => 0)
    [("alpha", { status := "ok", message := "plan A" })] []
    "beta" { status := "error", message := "boom" } 2 (by decide)
    (by intro p hp; simp at hp; subst hp; right; decide)

/-- Counterexample to C3 as stated: with two agents, an `error`-status
envelope that appears *after* an envelope whose declared agreement set
already reaches `min_agree`, `check_consensus` returns `True` — the
status check is interleaved with the agreement check in one loop, not a
preliminary pass over all envelopes. -/
theorem checkConsensus_error_after_agreement :
    checkConsensus (fun _ _ => (0 : ℚ))
      [("alpha", { status := "ok", message := "plan A", agrees_with := ["beta"] }),
       ("beta", { status := "error", message := "boom" })] 2 = true := by
  decide

/-- C4: `detect_stagnation` (i) returns false with fewer than two
participants, whatever the thread; (ii) with at least two participants
returns true exactly when at least two of them have two or more messages
and every such participant's two most recent messages are at or above
the similarity threshold; (iii) in particular returns true for two
distinct agents whose last two messages are each textually identical
(threshold at most 1); and (iv) returns false as soon as one participant
with history falls below the threshold. -/
theorem detectStagnation_spec (ratioFn : String → String → ℚ) :
    (∀ tail agents threshold,
       agents.length < 2 → detectStagnation ratioFn tail agents threshold = false) ∧
    (∀ tail agents threshold, 2 ≤ agents.length →
       (detectStagnation ratioFn tail agents threshold = true ↔
         2 ≤ (agentsWithHistory tail agents).length ∧
         ∀ a ∈ agentsWithHistory tail agents,
           agentPairSimilar ratioFn tail agents threshold a = true)) ∧
    ((∀ s, ratioFn s s = 1) →
       ∀ tail a1 a2 m1 m2 threshold, threshold ≤ 1 →
         agentMsgs tail [a1, a2] a1 = [m1, m1] →
         agentMsgs tail [a1, a2] a2 = [m2, m2] →
         a1 ≠ a2 →
         detectStagnation ratioFn tail [a1, a2] threshold = true) ∧
    (∀ tail agents threshold a, a ∈ agentsWithHistory tail agents →
       agentPairSimilar ratioFn tail agents threshold a = false →
       detectStagnation ratioFn tail agents threshold = false) := by
  refine ⟨?_, ?_, ?_, ?_⟩
  · intro tail agents threshold h
    simp [detectStagnation, h]
  · intro tail agents threshold h
    have h2 : ¬ agents.length < 2 := by omega
    by_cases hw : (agentsWithHistory tail agents).length < 2
    · have : ¬ 2 ≤ (agentsWithHistory tail agents).length := by omega
      simp [detectStagnation, h2, hw, this]
    · simp [detectStagnation, h2, hw, List.all_eq_true]
      omega
  · intro hr tail a1 a2 m1 m2 threshold hthr h1 h2 hne
    have hdedup : ([a1, a2] : List String).dedup = [a1, a2] := by
      simp [List.dedup_cons_of_not_mem, hne]
    have hwh : agentsWithHistory tail [a1, a2] = [a1, a2] := by
      unfold agentsWithHistory
      rw [hdedup]
      simp [List.filter_cons, h1, h2]
    have hsimA : agentPairSimilar ratioFn tail [a1, a2] threshold a1 = true := by
      simp [agentPairSimilar, h1, textSimilarity, hr, not_lt, hthr]
    have hsimB : agentPairSimilar ratioFn tail [a1, a2] threshold a2 = true := by
      simp [agentPairSimilar, h2, textSimilarity, hr, not_lt, hthr]
    simp [detectStagnation, hwh, hsimA, hsimB]
  · intro tail agents threshold a ha hfail
    unfold detectStagnation
    split
    · rfl
    · split
      · rfl
      · cases hall : (agentsWithHistory tail agents).all
            (agentPairSimilar ratioFn tail agents threshold)
        · rfl
        · have := List.all_eq_true.mp hall a ha
          rw [hfail] at this
          exact absurd this (by simp)

/-- Witness for C4: two agents alternating, each repeating itself
verbatim; the identical-messages conjunct of `detectStagnation_spec`
applies with the constant-1 ratio (which satisfies `ratio s s = 1`). -/
theorem detectStagnation_spec_witness :
    detectStagnation (fun _ _ => (1 : ℚ))
      [⟨"a", "xx"⟩, ⟨"b", "yy"⟩, ⟨"a", "xx"⟩, ⟨"b", "yy"⟩]
      ["a", "b"] (9/10) = true :=
  (detectStagnation_spec (fun _ _ => (1 : ℚ))).2.2.1 (fun _ => rfl)
    [⟨"a", "xx"⟩, ⟨"b", "yy"⟩, ⟨"a", "xx"⟩, ⟨"b", "yy"⟩]
    "a" "b" "xx" "yy" (9/10) (by norm_num) (by decide) (by decide) (by decide)

/-! ## Issue disposition (genflow_config.py lines 30-78 and 227-271)

`IssueBehavior`, `ConstraintBehavior.from_dict`/`get_behavior`, and
`get_behavior_for_severity`.  The per-constraint `behavior` mapping is a
YAML dict of severity name to behavior name, modelled as an association
list; a constraint may or may not carry one (`hasattr(constraint,
"behavior") and constraint.behavior` — an empty dict is falsy). -/

inductive IssueBehavior where
  | halt      -- "halt": stop critique phase, proceed to adjudicate
  | cont      -- "continue": accumulate issue, keep running
  | escalate  -- "escalate": skip adjudication, go directly to HITL
  | ignore    -- "ignore": log but exclude from adjudication
  deriving DecidableEq

/-- `IssueBehavior(val.lower())`, falling back to the default on
`ValueError`. -/
def parseIssueBehavior (s : String) (dflt : IssueBehavior) : IssueBehavior :=
  match pyLower s with
  | "halt" => .halt
  | "continue" => .cont
  | "escalate" => .escalate
  | "ignore" => .ignore
  | _ => dflt

/-- First value bound to a key in an association-list dict (`d.get`). -/
def lookupStr (d : List (String × String)) (k : String) : Option String :=
  (d.find? (fun p => p.1 == k)).map Prod.snd

/-- `parse_behavior` inside `ConstraintBehavior.from_dict`:
`val = d.get(key.upper()) or d.get(key.lower())`; `None` yields the
default, an unrecognized name yields the default. -/
def parseBehaviorKey (d : List (String × String)) (key : String)
    (dflt : IssueBehavior) : IssueBehavior :=
  let val :=
    match lookupStr d (pyUpper key) with
    | some v => if v ≠ "" then some v else lookupStr d (pyLower key)
    | none => lookupStr d (pyLower key)
  match val with
  | none => dflt
  | some v => parseIssueBehavior v dflt

structure ConstraintBehavior where
  critical : IssueBehavior := .halt
  high : IssueBehavior := .halt
  medium : IssueBehavior := .cont
  low : IssueBehavior := .ignore
  deriving DecidableEq

/-- `ConstraintBehavior.from_dict`, with the built-in per-severity
defaults CRITICAL→HALT, HIGH→HALT, MEDIUM→CONTINUE, LOW→IGNORE. -/
def ConstraintBehavior.fromDict (d : List (String × String)) :
    ConstraintBehavior where
  critical := parseBehaviorKey d "critical" .halt
  high := parseBehaviorKey d "high" .halt
  medium := parseBehaviorKey d "medium" .cont
  low := parseBehaviorKey d "low" .ignore

/-- `ConstraintBehavior.get_behavior`: unknown severities map to
CONTINUE. -/
def ConstraintBehavior.getBehavior (b : ConstraintBehavior)
    (severity : String) : IssueBehavior :=
  match pyUpper severity with
  | "CRITICAL" => b.critical
  | "HIGH" => b.high
  | "MEDIUM" => b.medium
  | "LOW" => b.low
  | _ => .cont

/-- The slice of a `Constraint` that `get_behavior_for_severity` reads:
its id and its (dynamically attached, possibly absent) `behavior` dict. -/
structure GfConstraint where
  id : String
  behavior : Option (List (String × String)) := none

/-- The slice of `GenflowConfig` that `get_behavior_for_severity`
reads. -/
structure GenflowBehaviorConfig where
  default_behavior : ConstraintBehavior := {}
  constraint_behaviors : List (String × ConstraintBehavior) := []

def lookupBehavior (d : List (String × ConstraintBehavior)) (k : String) :
    Option ConstraintBehavior :=
  (d.find? (fun p => p.1 == k)).map Prod.snd

/-- `get_behavior_for_severity` (genflow_config.py lines 227-271). -/
def getBehaviorForSeverity (c : GfConstraint) (severity : String)
    (cfg : GenflowBehaviorConfig) : IssueBehavior :=
  match c.behavior with
  | some bd =>
      if bd.isEmpty then
        match lookupBehavior cfg.constraint_behaviors c.id with
        | some b => b.getBehavior severity
        | none => cfg.default_behavior.getBehavior severity
      else (ConstraintBehavior.fromDict bd).getBehavior severity
  | none =>
      match lookupBehavior cfg.constraint_behaviors c.id with
      | some b => b.getBehavior severity
      | none => cfg.default_behavior.getBehavior severity

/-! ## Serial critique issue processing (genflow.py lines 633-651)

The per-issue disposition loop of a serial critique step: HALT keeps the
issue and stops the batch, ESCALATE diverts the issue to the HITL list,
CONTINUE keeps it, IGNORE drops it.  Returns (kept issues, halted flag,
escalation issues). -/

def processIssuesSerial (behaviorOf : CritiqueIssue → IssueBehavior) :
    List CritiqueIssue → List CritiqueIssue × Bool × List CritiqueIssue
  | [] => ([], false, [])
  | i :: rest =>
    match behaviorOf i with
    | .halt => ([i], true, [])
    | .escalate =>
        let r := processIssuesSerial behaviorOf rest
        (r.1, r.2.1, i :: r.2.2)
    | .cont =>
        let r := processIssuesSerial behaviorOf rest
        (i :: r.1, r.2.1, r.2.2)
    | .ignore => processIssuesSerial behaviorOf rest

/-- A serial critique pass never halts when no processed issue resolves
to the HALT behavior. -/
theorem processIssuesSerial_no_halt (behaviorOf : CritiqueIssue → IssueBehavior)
    (issues : List CritiqueIssue)
    (h : ∀ i ∈ issues, behaviorOf i ≠ .halt) :
    (processIssuesSerial behaviorOf issues).2.1 = false := by
  induction issues with
  | nil => rfl
  | cons i rest ih =>
    have hi := h i (by simp)
    have hrest := ih (fun j hj => h j (by simp [hj]))
    cases hb : behaviorOf i
    · exact absurd hb hi
    · simpa [processIssuesSerial, hb] using hrest
    · simpa [processIssuesSerial, hb] using hrest
    · simpa [processIssuesSerial, hb] using hrest

/-- C5: issue disposition resolves in the order (1) the constraint's own
behavior mapping when present and non-empty, (2) the configuration's
per-constraint override, (3) the configured default table, whose entries
default per-severity to the built-in table CRITICAL→HALT, HIGH→HALT,
MEDIUM→CONTINUE, LOW→IGNORE; and in particular a constraint carrying an
explicit CRITICAL→CONTINUE override yields CONTINUE for CRITICAL under
every configuration, so a serial critique batch of CRITICAL issues from
that constraint is never halted. -/
theorem getBehaviorForSeverity_resolution :
    (∀ (c : GfConstraint) (severity : String) (cfg : GenflowBehaviorConfig)
       (bd : List (String × String)), c.behavior = some bd → bd ≠ [] →
       getBehaviorForSeverity c severity cfg =
         (ConstraintBehavior.fromDict bd).getBehavior severity) ∧
    (∀ (c : GfConstraint) (severity : String) (cfg : GenflowBehaviorConfig)
       (cb : ConstraintBehavior),
       (c.behavior = none ∨ c.behavior = some []) →
       lookupBehavior cfg.constraint_behaviors c.id = some cb →
       getBehaviorForSeverity c severity cfg = cb.getBehavior severity) ∧
    (∀ (c : GfConstraint) (severity : String) (cfg : GenflowBehaviorConfig),
       (c.behavior = none ∨ c.behavior = some []) →
       lookupBehavior cfg.constraint_behaviors c.id = none →
       getBehaviorForSeverity c severity cfg =
         cfg.default_behavior.getBehavior severity) ∧
    (ConstraintBehavior.fromDict [] =
       { critical := .halt, high := .halt, medium := .cont, low := .ignore } ∧
     ∀ (d : List (String × String)) (key : String) (dflt : IssueBehavior),
       lookupStr d (pyUpper key) = none → lookupStr d (pyLower key) = none →
       parseBehaviorKey d key dflt = dflt) ∧
    (∀ (cfg : GenflowBehaviorConfig) (cid : String)
       (issues : List CritiqueIssue),
       (∀ i ∈ issues, i.severity = "CRITICAL") →
       getBehaviorForSeverity ⟨cid, some [("CRITICAL", "continue")]⟩
         "CRITICAL" cfg = .cont ∧
       (processIssuesSerial
         (fun i => getBehaviorForSeverity
           ⟨cid, some [("CRITICAL", "continue")]⟩ i.severity cfg)
         issues).2.1 = false) := by
  refine ⟨?_, ?_, ?_, ⟨rfl, ?_⟩, ?_⟩
  · intro c severity cfg bd hb hne
    cases bd with
    | nil => exact absurd rfl hne
    | cons p rest => simp [getBehaviorForSeverity, hb]
  · intro c severity cfg cb hb hl
    rcases hb with hb | hb <;> simp [getBehaviorForSeverity, hb, hl]
  · intro c severity cfg hb hl
    rcases hb with hb | hb <;> simp [getBehaviorForSeverity, hb, hl]
  · intro d key dflt hu hl
    simp [parseBehaviorKey, hu, hl]
  · intro cfg cid issues hsev
    have hres : getBehaviorForSeverity ⟨cid, some [("CRITICAL", "continue")]⟩
        "CRITICAL" cfg = .cont := by
      simp only [getBehaviorForSeverity, List.isEmpty_cons, Bool.false_eq_true,
        if_false]
      decide
    refine ⟨hres, processIssuesSerial_no_halt _ _ ?_⟩
    intro i hi
    rw [hsev i hi, hres]
    decide

/-- Witness for C5: the configured-default layer and the override layer
at concrete inputs, and a concrete one-CRITICAL-issue batch that does not
halt. -/
theorem getBehaviorForSeverity_resolution_witness :
    getBehaviorForSeverity ⟨"tone", some [("CRITICAL", "continue")]⟩
      "CRITICAL" {} = .cont ∧
    (processIssuesSerial
      (fun i => getBehaviorForSeverity
        ⟨"tone", some [("CRITICAL", "continue")]⟩ i.severity {})
      [{ id := "tone-001", rule_id := "r1", severity := "CRITICAL",
         location := "intro", finding := "f", evidence := "e" }]).2.1 = false :=
  getBehaviorForSeverity_resolution.2.2.2.2 {} "tone"
    [{ id := "tone-001", rule_id := "r1", severity := "CRITICAL",
       location := "intro", finding := "f", evidence := "e" }]
    (by decide)

/-! ## Fixed-pipeline post-adjudication control flow
(arena.py lines 1535-1660 and genflow.py lines 911-926)

After parsing an adjudication, the fixed pipeline: (1) treats the run as
approved when `adjudication.status == "APPROVED"` (saving the final
artifact and returning exit code 0); (2) otherwise, when a previous
iteration's adjudication exists, intersects the current pursuing-issue
ids with the previous ones, increments a per-issue counter for each
overlapping id, and escalates to HITL (exit code 10) when some counter
reaches the thrash threshold and `"thrashing"` is in `escalate_on`; (3)
otherwise checks the conflicting-criticals escalation; (4) otherwise
continues into the next iteration.  The genflow engine's adjudicate step
performs only check (1). -/

def pursuingIds (a : Adjudication) : List String :=
  (a.decisions.filter (fun d => d.status == "pursuing")).map
    (fun d => d.issue_id)

/-- Decisions still pursuing at severity CRITICAL or HIGH — the
approval bar as the design states it. -/
def pursuingCriticalHigh (a : Adjudication) : List AdjudicationDecision :=
  a.decisions.filter (fun d =>
    d.status == "pursuing" && (d.severity == "CRITICAL" || d.severity == "HIGH"))

inductive StepOutcome where
  | approved     -- final artifact saved, EXIT_OK (0) returned
  | hitl         -- HITL questions written, EXIT_HITL (10) returned
  | continueRun  -- proceed (next iteration / next step)
  deriving DecidableEq

/-- `prev_issues & curr_issues` as a duplicate-free list. -/
def thrashOverlap (prev curr : List String) : List String :=
  prev.dedup.filter (fun i => curr.contains i)

/-- One counter increment per overlapping issue id. -/
def thrashUpdate (overlap : List String) (counts : String → Nat) :
    String → Nat :=
  fun i => if overlap.contains i then counts i + 1 else counts i

/-- Ids whose incremented counter has reached the threshold
(`counts[id] >= thrash_threshold` tested after the increment). -/
def chronicThrashers (overlap : List String) (counts : String → Nat)
    (threshold : Nat) : List String :=
  overlap.filter (fun i => decide (threshold ≤ counts i + 1))

/-- The conflicting-criticals test (arena.py lines 1629-1634): more than
one CRITICAL pursuing decision and at least one of them names a truthy
competing constraint. -/
def hasConflictingCriticals (a : Adjudication) : Bool :=
  let crit := a.decisions.filter (fun d =>
    d.severity == "CRITICAL" && d.status == "pursuing")
  decide (1 < crit.length) &&
    crit.any (fun d => d.competing_constraint.getD "" != "")

/-- The fixed pipeline's decision step after one adjudication.
`prevPursuing = none` models iteration 1 (or a missing previous
adjudication file).  Returns the control-flow outcome and the updated
thrash counters. -/
def postAdjudicationStep (adj : Adjudication)
    (prevPursuing : Option (List String)) (counts : String → Nat)
    (thrashThreshold : Nat)
    (escalateOnThrashing escalateOnConflicting : Bool) :
    StepOutcome × (String → Nat) :=
  if adj.status == "APPROVED" then (.approved, counts)
  else
    let thrash :=
      match prevPursuing with
      | none => (counts, false)
      | some prev =>
        let overlap := thrashOverlap prev (pursuingIds adj)
        if overlap.isEmpty then (counts, false)
        else (thrashUpdate overlap counts,
          escalateOnThrashing &&
            !(chronicThrashers overlap counts thrashThreshold).isEmpty)
    if thrash.2 then (.hitl, thrash.1)
    else if escalateOnConflicting && hasConflictingCriticals adj then
      (.hitl, thrash.1)
    else (.continueRun, thrash.1)

/-- The genflow engine's adjudicate-step outcome (genflow.py lines
911-926): `EXIT_OK` on `status == "APPROVED"`, else `STEP_CONTINUE`. -/
def genflowAdjudicateOutcome (adj : Adjudication) : StepOutcome :=
  if adj.status == "APPROVED" then .approved else .continueRun

/-- Membership in the pursuing-set overlap. -/
theorem mem_thrashOverlap {x : String} {prev curr : List String} :
    x ∈ thrashOverlap prev curr ↔ x ∈ prev ∧ x ∈ curr := by
  simp [thrashOverlap, List.mem_filter, List.mem_dedup]

/-- Counterexample to C2 as stated: an adjudication whose status field
says APPROVED while a CRITICAL decision is still pursuing is treated as
approved by both the fixed pipeline and the genflow engine — the
approval decision reads only the status field. -/
theorem approval_ignores_pursuing_criticals :
    (postAdjudicationStep
      { iteration := 1, status := "APPROVED",
        decisions := [{ issue_id := "sec-001", constraint := "security",
                        severity := "CRITICAL", status := "pursuing" }],
        bill_of_work := "" } none (fun _ => 0) 2 true true).1 = .approved ∧
    genflowAdjudicateOutcome
      { iteration := 1, status := "APPROVED",
        decisions := [{ issue_id := "sec-001", constraint := "security",
                        severity := "CRITICAL", status := "pursuing" }],
        bill_of_work := "" } = .approved ∧
    (pursuingCriticalHigh
      { iteration := 1, status := "APPROVED",
        decisions := [{ issue_id := "sec-001", constraint := "security",
                        severity := "CRITICAL", status := "pursuing" }],
        bill_of_work := "" }).length = 1 := by
  decide

/-- C2 (amended): in both the fixed pipeline and the genflow engine, a
run is treated as approved (final artifact saved, success exit code) if
and only if the adjudication's own status field equals "APPROVED"; the
zero-pursuing-CRITICAL/HIGH policy is delegated to the adjudicator
agent's prompt and is not re-checked by the orchestrator. -/
theorem approvedOutcome_iff_status (adj : Adjudication)
    (prevPursuing : Option (List String)) (counts : String → Nat)
    (thrashThreshold : Nat) (eT eC : Bool) :
    ((postAdjudicationStep adj prevPursuing counts thrashThreshold eT eC).1
        = .approved ↔ adj.status = "APPROVED") ∧
    (genflowAdjudicateOutcome adj = .approved ↔ adj.status = "APPROVED") := by
  constructor
  · by_cases h : adj.status = "APPROVED"
    · simp [postAdjudicationStep, h]
    · refine iff_of_false ?_ h
      simp only [postAdjudicationStep, beq_iff_eq, if_neg h]
      split
      · simp
      · split <;> simp
  · by_cases h : adj.status = "APPROVED" <;>
      simp [genflowAdjudicateOutcome, h]

/-- C6: with thrash escalation configured and threshold 2, an issue id
pursuing in iterations 1, 2 and 3: the iteration-2 check increments its
counter to 1 and lets the run continue (no escalation before iteration
3), and the iteration-3 check reaches the threshold and escalates to
HITL. -/
theorem thrashEscalation_window (a1 a2 a3 : Adjudication) (x : String)
    (h1 : x ∈ pursuingIds a1) (h2 : x ∈ pursuingIds a2)
    (h3 : x ∈ pursuingIds a3)
    (hs2 : a2.status ≠ "APPROVED") (hs3 : a3.status ≠ "APPROVED") :
    (postAdjudicationStep a2 (some (pursuingIds a1))
        (fun _ => 0) 2 true false).1 = .continueRun ∧
    (postAdjudicationStep a2 (some (pursuingIds a1))
        (fun _ => 0) 2 true false).2 x = 1 ∧
    (postAdjudicationStep a3 (some (pursuingIds a2))
        (postAdjudicationStep a2 (some (pursuingIds a1))
          (fun _ => 0) 2 true false).2 2 true false).1 = .hitl := by
  have hov2 : x ∈ thrashOverlap (pursuingIds a1) (pursuingIds a2) :=
    mem_thrashOverlap.mpr ⟨h1, h2⟩
  have hov3 : x ∈ thrashOverlap (pursuingIds a2) (pursuingIds a3) :=
    mem_thrashOverlap.mpr ⟨h2, h3⟩
  have hne2 : (thrashOverlap (pursuingIds a1) (pursuingIds a2)).isEmpty
      = false := by
    cases hcase : thrashOverlap (pursuingIds a1) (pursuingIds a2) with
    | nil => exact absurd (hcase ▸ hov2) (List.not_mem_nil x)
    | cons y l => rfl
  have hne3 : (thrashOverlap (pursuingIds a2) (pursuingIds a3)).isEmpty
      = false := by
    cases hcase : thrashOverlap (pursuingIds a2) (pursuingIds a3) with
    | nil => exact absurd (hcase ▸ hov3) (List.not_mem_nil x)
    | cons y l => rfl
  have hc2 : (thrashOverlap (pursuingIds a1) (pursuingIds a2)).contains x
      = true := by simpa using hov2
  have hchron2 : chronicThrashers
      (thrashOverlap (pursuingIds a1) (pursuingIds a2)) (fun _ => 0) 2
      = [] := by
    simp [chronicThrashers]
  have hstep2 : postAdjudicationStep a2 (some (pursuingIds a1))
      (fun _ => 0) 2 true false
      = (.continueRun,
         thrashUpdate (thrashOverlap (pursuingIds a1) (pursuingIds a2))
           (fun _ => 0)) := by
    simp [postAdjudicationStep, hs2, hne2, hchron2]
  have hcount : (thrashUpdate
      (thrashOverlap (pursuingIds a1) (pursuingIds a2)) (fun _ => 0)) x
      = 1 := by
    simp [thrashUpdate, hc2, hov2]
  have hchron3 : x ∈ chronicThrashers
      (thrashOverlap (pursuingIds a2) (pursuingIds a3))
      (thrashUpdate (thrashOverlap (pursuingIds a1) (pursuingIds a2))
        (fun _ => 0)) 2 := by
    rw [chronicThrashers, List.mem_filter]
    exact ⟨hov3, by simp [hcount]⟩
  have hchne3 : (chronicThrashers
      (thrashOverlap (pursuingIds a2) (pursuingIds a3))
      (thrashUpdate (thrashOverlap (pursuingIds a1) (pursuingIds a2))
        (fun _ => 0)) 2).isEmpty = false := by
    cases hl : chronicThrashers
        (thrashOverlap (pursuingIds a2) (pursuingIds a3))
        (thrashUpdate (thrashOverlap (pursuingIds a1) (pursuingIds a2))
          (fun _ => 0)) 2 with
    | nil => exact absurd (hl ▸ hchron3) (List.not_mem_nil x)
    | cons y l => rfl
  refine ⟨by rw [hstep2], by rw [hstep2]; exact hcount, ?_⟩
  rw [hstep2]
  simp [postAdjudicationStep, hs3, hne3, hchne3]

/-- Witness for C6: a concrete adjudication with the single issue
`dup-1` pursuing, repeated across three iterations. -/
theorem thrashEscalation_window_witness :
    (postAdjudicationStep
      { iteration := 2, status := "REWRITE",
        decisions := [{ issue_id := "dup-1", constraint := "quality",
                        severity := "HIGH", status := "pursuing" }],
        bill_of_work := "fix dup-1" }
      (some (pursuingIds
        { iteration := 1, status := "REWRITE",
          decisions := [{ issue_id := "dup-1", constraint := "quality",
                          severity := "HIGH", status := "pursuing" }],
          bill_of_work := "fix dup-1" }))
      (fun _ => 0) 2 true false).1 = .continueRun ∧
    (postAdjudicationStep
      { iteration := 2, status := "REWRITE",
        decisions := [{ issue_id := "dup-1", constraint := "quality",
                        severity := "HIGH", status := "pursuing" }],
        bill_of_work := "fix dup-1" }
      (some (pursuingIds
        { iteration := 1, status := "REWRITE",
          decisions := [{ issue_id := "dup-1", constraint := "quality",
                          severity := "HIGH", status := "pursuing" }],
          bill_of_work := "fix dup-1" }))
      (fun _ => 0) 2 true false).2 "dup-1" = 1 ∧
    (postAdjudicationStep
      { iteration := 3, status := "REWRITE",
        decisions := [{ issue_id := "dup-1", constraint := "quality",
                        severity := "HIGH", status := "pursuing" }],
        bill_of_work := "fix dup-1" }
      (some (pursuingIds
        { iteration := 2, status := "REWRITE",
          decisions := [{ issue_id := "dup-1", constraint := "quality",
                          severity := "HIGH", status := "pursuing" }],
          bill_of_work := "fix dup-1" }))
      (postAdjudicationStep
        { iteration := 2, status := "REWRITE",
          decisions := [{ issue_id := "dup-1", constraint := "quality",
                          severity := "HIGH", status := "pursuing" }],
          bill_of_work := "fix dup-1" }
        (some (pursuingIds
          { iteration := 1, status := "REWRITE",
            decisions := [{ issue_id := "dup-1", constraint := "quality",
                            severity := "HIGH", status := "pursuing" }],
            bill_of_work := "fix dup-1" }))
        (fun _ => 0) 2 true false).2 2 true false).1 = .hitl := by
  have := thrashEscalation_window
    { iteration := 1, status := "REWRITE",
      decisions := [{ issue_id := "dup-1", constraint := "quality",
                      severity := "HIGH", status := "pursuing" }],
      bill_of_work := "fix dup-1" }
    { iteration := 2, status := "REWRITE",
      decisions := [{ issue_id := "dup-1", constraint := "quality",
                      severity := "HIGH", status := "pursuing" }],
      bill_of_work := "fix dup-1" }
    { iteration := 3, status := "REWRITE",
      decisions := [{ issue_id := "dup-1", constraint := "quality",
                      severity := "HIGH", status := "pursuing" }],
      bill_of_work := "fix dup-1" }
    "dup-1" (by decide) (by decide) (by decide) (by decide) (by decide)
  exact this

/-! ## `validate_artifacts` (parsers.py lines 182-204)

```python
def validate_artifacts(env: Envelope, base_dir: Path) -> List[str]:
    warnings = []
    base_resolved = base_dir.resolve()
    for art in env.artifacts:
        art_path = Path(art.get("path", ""))
        if not art_path.is_absolute():
            art_path = base_dir / art_path
        resolved = art_path.resolve()
        if not str(resolved).startswith(str(base_resolved)):
            warnings.append(f"Artifact path escapes base directory: ...")
            continue
        if not resolved.exists():
            warnings.append(f"Artifact not found: ...")
    return warnings
```

POSIX paths are modelled as strings; `Path.resolve()` (no symlinks in
the model, base directory absolute) is lexical normalisation of `.` and
`..` components, with `..` at the root staying at the root; `exists()`
is membership in a list of resolved paths present on disk. -/

/-- Split a path string on `/`, dropping empty components. -/
def pathComponentsAux : List Char → List Char → List String
  | [], acc => if acc.isEmpty then [] else [⟨acc.reverse⟩]
  | c :: cs, acc =>
    if c = '/' then
      if acc.isEmpty then pathComponentsAux cs []
      else (⟨acc.reverse⟩ : String) :: pathComponentsAux cs []
    else pathComponentsAux cs (c :: acc)

def pathComponents (s : String) : List String := pathComponentsAux s.data []

/-- Normalise components against a (reversed) stack: `.` is dropped,
`..` pops the latest component (staying at the root when none is
left). -/
def normComponents : List String → List String → List String
  | [], acc => acc.reverse
  | c :: cs, acc =>
    if c = "." then normComponents cs acc
    else if c = ".." then normComponents cs acc.tail
    else normComponents cs (c :: acc)

def renderAbsPath (comps : List String) : String :=
  match comps with
  | [] => "/"
  | _ => "/" ++ String.intercalate "/" comps

/-- `Path.resolve()` of an absolute path, symlink-free. -/
def resolvePath (s : String) : String :=
  renderAbsPath (normComponents (pathComponents s) [])

/-- `str.startswith` (character-prefix, exactly as the code compares
path strings). -/
def strStartsWith (s pre : String) : Bool := pre.data.isPrefixOf s.data

def isAbsolutePath (s : String) : Bool :=
  match s.data with
  | '/' :: _ => true
  | _ => false

def joinPath (base rel : String) : String := base ++ "/" ++ rel

/-- Disposition of one artifact reference: `some w` is a warning
appended, `none` means the reference passed both checks. -/
def artifactWarning (baseDir : String) (present : List String)
    (art : String) : Option String :=
  let artPath := if isAbsolutePath art then art else joinPath baseDir art
  let resolved := resolvePath artPath
  if !(strStartsWith resolved (resolvePath baseDir)) then
    some ("Artifact path escapes base directory: " ++ art)
  else if !(present.contains resolved) then
    some ("Artifact not found: " ++ art)
  else none

/-- The warning list `validate_artifacts` returns (warnings are appended
to the envelope message by the caller; they are never fatal). -/
def validateArtifacts (env : Envelope) (baseDir : String)
    (present : List String) : List String :=
  env.artifacts.filterMap (artifactWarning baseDir present)

/-- Counterexample to C7 as stated: against the base directory `/e`,
the reference `../../etc/passwd` resolves to `/etc/passwd`, whose string
starts with `/e`, so the `startswith` containment test passes and — the
file existing on disk — no warning at all is produced: the reference is
treated as valid despite resolving outside the base directory. -/
theorem validateArtifacts_passwd_escapes_check :
    validateArtifacts
      { status := "ok", message := "", artifacts := ["../../etc/passwd"] }
      "/e" ["/etc/passwd"] = [] := by
  decide

/-- C7 (amended): `validate_artifacts` emits a warning (never a fatal
error — it only returns a warning list) for each artifact reference
whose resolved path string does not start with the resolved base
directory's string, and such a reference is never reported as existing
regardless of the filesystem; references passing the prefix test that do
not exist get a not-found warning only; `../../etc/passwd` is rejected
against base directories (such as `/srv/run1`) whose resolved string is
not a character-prefix of the traversal target. -/
theorem validateArtifacts_spec :
    (∀ baseDir present art,
       strStartsWith
         (resolvePath (if isAbsolutePath art then art
                       else joinPath baseDir art))
         (resolvePath baseDir) = false →
       artifactWarning baseDir present art =
         some ("Artifact path escapes base directory: " ++ art)) ∧
    (∀ baseDir present art,
       strStartsWith
         (resolvePath (if isAbsolutePath art then art
                       else joinPath baseDir art))
         (resolvePath baseDir) = true →
       present.contains
         (resolvePath (if isAbsolutePath art then art
                       else joinPath baseDir art)) = false →
       artifactWarning baseDir present art =
         some ("Artifact not found: " ++ art)) ∧
    (∀ baseDir present art,
       strStartsWith
         (resolvePath (if isAbsolutePath art then art
                       else joinPath baseDir art))
         (resolvePath baseDir) = true →
       present.contains
         (resolvePath (if isAbsolutePath art then art
                       else joinPath baseDir art)) = true →
       artifactWarning baseDir present art = none) ∧
    (∀ env baseDir present art w, art ∈ env.artifacts →
       artifactWarning baseDir present art = some w →
       w ∈ validateArtifacts env baseDir present) ∧
    (∀ present,
       artifactWarning "/srv/run1" present "../../etc/passwd" =
         some ("Artifact path escapes base directory: ../../etc/passwd")) := by
  have hesc : ∀ baseDir present art,
      strStartsWith
        (resolvePath (if isAbsolutePath art then art
                      else joinPath baseDir art))
        (resolvePath baseDir) = false →
      artifactWarning baseDir present art =
        some ("Artifact path escapes base directory: " ++ art) := by
    intro baseDir present art h
    simp [artifactWarning, h]
  refine ⟨hesc, ?_, ?_, ?_, ?_⟩
  · intro baseDir present art h hp
    simp [artifactWarning, h]
    simpa using hp
  · intro baseDir present art h hp
    simp [artifactWarning, h]
    simpa using hp
  · intro env baseDir present art w hart hw
    exact List.mem_filterMap.mpr ⟨art, hart, hw⟩
  · intro present
    exact hesc "/srv/run1" present "../../etc/passwd" (by decide)

/-- Witness for C7 (amended): the escape conjunct at a concrete base
directory, artifact and filesystem — the warning fires even though
`/etc/passwd` exists. -/
theorem validateArtifacts_spec_witness :
    artifactWarning "/srv/run1" ["/etc/passwd"] "../../etc/passwd" =
      some ("Artifact path escapes base directory: ../../etc/passwd") :=
  validateArtifacts_spec.1 "/srv/run1" ["/etc/passwd"] "../../etc/passwd"
    (by decide)

/-! ## Critique serialisation (models.py lines 195-264)

`Critique.to_dict` / `Critique.from_dict` exchange Python dicts; these
are modelled as association lists over a Python-value type.  Python
stores scalar fields without type checks; the typed embedding rejects
non-conforming values (`Except`), which never happens on the image of
`to_dict` — the inputs the round-trip claim is about. -/

inductive PyVal where
  | str (s : String)
  | int (n : Int)
  | rat (q : ℚ)   -- Python float
  | bool (b : Bool)
  | none
  | list (l : List PyVal)
  | dict (d : List (String × PyVal))

/-- `d.get(k, dflt)`. -/
def pyGet (d : List (String × PyVal)) (k : String) (dflt : PyVal) : PyVal :=
  match d.find? (fun p => p.1 == k) with
  | some p => p.2
  | Option.none => dflt

def PyVal.asStr : PyVal → Except String String
  | .str s => .ok s
  | _ => .error "expected str"

def PyVal.asInt : PyVal → Except String Int
  | .int n => .ok n
  | _ => .error "expected int"

def PyVal.asRat : PyVal → Except String ℚ
  | .rat q => .ok q
  | _ => .error "expected float"

/-- `suggested_fix`: `None` or a string. -/
def PyVal.asOptStr : PyVal → Except String (Option String)
  | .none => .ok Option.none
  | .str s => .ok (some s)
  | _ => .error "expected str or None"

/-- One issue entry of `Critique.to_dict`. -/
def CritiqueIssue.toDict (i : CritiqueIssue) : List (String × PyVal) :=
  [("id", .str i.id),
   ("rule_id", .str i.rule_id),
   ("severity", .str i.severity),
   ("location", .str i.location),
   ("finding", .str i.finding),
   ("evidence", .str i.evidence),
   ("suggested_fix", match i.suggested_fix with
                     | some s => .str s
                     | Option.none => .none),
   ("confidence", .rat i.confidence)]

/-- One issue entry of `Critique.from_dict`, with the source's
per-field defaults. -/
def CritiqueIssue.fromDict (d : List (String × PyVal)) :
    Except String CritiqueIssue := do
  let id ← (pyGet d "id" (.str "")).asStr
  let rule_id ← (pyGet d "rule_id" (.str "")).asStr
  let severity ← (pyGet d "severity" (.str "HIGH")).asStr
  let location ← (pyGet d "location" (.str "")).asStr
  let finding ← (pyGet d "finding" (.str "")).asStr
  let evidence ← (pyGet d "evidence" (.str "")).asStr
  let suggested_fix ← (pyGet d "suggested_fix" .none).asOptStr
  let confidence ← (pyGet d "confidence" (.rat (9/10))).asRat
  return { id, rule_id, severity, location, finding, evidence,
           suggested_fix, confidence }

/-- The `for issue_data in d.get("issues", [])` loop: each entry must be
a dict (Python raises otherwise). -/
def parseIssues : List PyVal → Except String (List CritiqueIssue)
  | [] => .ok []
  | .dict di :: rest => do
      let i ← CritiqueIssue.fromDict di
      let is ← parseIssues rest
      return i :: is
  | _ :: _ => .error "issue entry is not a dict"

def parseStrPairs : List (String × PyVal) →
    Except String (List (String × String))
  | [] => .ok []
  | (k, .str v) :: rest => do
      let ps ← parseStrPairs rest
      return (k, v) :: ps
  | _ :: _ => .error "expected str value"

/-- `approved_sections`: a list of string-to-string dicts (passed
through untouched by the Python code; parsed back structurally here). -/
def parseSections : List PyVal → Except String (List (List (String × String)))
  | [] => .ok []
  | .dict ds :: rest => do
      let s ← parseStrPairs ds
      let ss ← parseSections rest
      return s :: ss
  | _ :: _ => .error "section is not a dict"

def Critique.toDict (c : Critique) : List (String × PyVal) :=
  [("constraint_id", .str c.constraint_id),
   ("reviewer", .str c.reviewer),
   ("iteration", .int c.iteration),
   ("overall", .str c.overall),
   ("issues", .list (c.issues.map (fun i => .dict i.toDict))),
   ("approved_sections", .list (c.approved_sections.map (fun s =>
      .dict (s.map (fun p => (p.1, PyVal.str p.2)))))),
   ("summary", .str c.summary)]

def Critique.fromDict (d : List (String × PyVal)) :
    Except String Critique := do
  let issues ←
    match pyGet d "issues" (.list []) with
    | .list items => parseIssues items
    | _ => .error "issues is not iterable"
  let constraint_id ← (pyGet d "constraint_id" (.str "")).asStr
  let reviewer ← (pyGet d "reviewer" (.str "")).asStr
  let iteration ← (pyGet d "iteration" (.int 1)).asInt
  let overall ← (pyGet d "overall" (.str "FAIL")).asStr
  let approved_sections ←
    match pyGet d "approved_sections" (.list []) with
    | .list items => parseSections items
    | _ => .error "approved_sections is not a list"
  let summary ← (pyGet d "summary" (.str "")).asStr
  return { constraint_id, reviewer, iteration, overall, issues,
           approved_sections, summary }

theorem issue_fromDict_toDict (i : CritiqueIssue) :
    CritiqueIssue.fromDict i.toDict = .ok i := by
  rcases i with ⟨id, rid, sev, loc, fin, ev, sfix, conf⟩
  cases sfix <;> rfl

theorem parseIssues_toDict (issues : List CritiqueIssue) :
    parseIssues (issues.map (fun i => .dict i.toDict)) = .ok issues := by
  induction issues with
  | nil => rfl
  | cons i rest ih =>
    simp only [List.map_cons, parseIssues, issue_fromDict_toDict, ih]
    rfl

theorem parseStrPairs_map (l : List (String × String)) :
    parseStrPairs (l.map (fun p => (p.1, PyVal.str p.2))) = .ok l := by
  induction l with
  | nil => rfl
  | cons p rest ih =>
    simp only [List.map_cons, parseStrPairs, ih]
    rfl

theorem parseSections_map (l : List (List (String × String))) :
    parseSections (l.map (fun s =>
      PyVal.dict (s.map (fun p => (p.1, PyVal.str p.2))))) = .ok l := by
  induction l with
  | nil => rfl
  | cons s rest ih =>
    simp only [List.map_cons, parseSections, parseStrPairs_map, ih]
    rfl

/-- C10: serialising a critique with `to_dict` and re-parsing with
`from_dict` is a lossless round trip for every field of the critique and
of each of its issues. -/
theorem critique_fromDict_toDict (c : Critique) :
    Critique.fromDict c.toDict = .ok c := by
  rcases c with ⟨cid, rev, iter, ov, issues, secs, summ⟩
  simp [Critique.fromDict, Critique.toDict, pyGet, List.find?,
    parseIssues_toDict, parseSections_map, PyVal.asStr, PyVal.asInt]
  rfl

/-! ## `json.loads` (Python standard library)

A JSON text decodes to a `PyVal` (integer literals to `int`, literals
with a fraction or exponent to `float`, modelled as ℚ).  The parser is a
fuel-indexed recursive-descent decoder over the character list; `none`
models `json.JSONDecodeError`.  (Python's `json` additionally accepts
`NaN`/`Infinity` and combines `\u` surrogate pairs; none of the inputs
this development evaluates use those.) -/

def jsonSkipWs (cs : List Char) : List Char :=
  cs.dropWhile (fun c => c == ' ' || c == '\t' || c == '\n' || c == '\r')

def hexVal (c : Char) : Option Nat :=
  if '0' ≤ c && c ≤ '9' then some (c.toNat - 48)
  else if 'a' ≤ c && c ≤ 'f' then some (c.toNat - 87)
  else if 'A' ≤ c && c ≤ 'F' then some (c.toNat - 55)
  else Option.none

def parseJsonStrAux : List Char → List Char → Option (String × List Char)
  | [], _ => Option.none
  | '"' :: rest, acc => some (⟨acc.reverse⟩, rest)
  | '\\' :: e :: rest, acc =>
    match e with
    | '"' => parseJsonStrAux rest ('"' :: acc)
    | '\\' => parseJsonStrAux rest ('\\' :: acc)
    | '/' => parseJsonStrAux rest ('/' :: acc)
    | 'n' => parseJsonStrAux rest ('\n' :: acc)
    | 't' => parseJsonStrAux rest ('\t' :: acc)
    | 'r' => parseJsonStrAux rest ('\r' :: acc)
    | 'b' => parseJsonStrAux rest (Char.ofNat 8 :: acc)
    | 'f' => parseJsonStrAux rest (Char.ofNat 12 :: acc)
    | 'u' =>
      match rest with
      | h1 :: h2 :: h3 :: h4 :: r2 =>
        match hexVal h1, hexVal h2, hexVal h3, hexVal h4 with
        | some a, some b, some c, some d =>
            parseJsonStrAux r2
              (Char.ofNat (((a * 16 + b) * 16 + c) * 16 + d) :: acc)
        | _, _, _, _ => Option.none
      | _ => Option.none
    | _ => Option.none
  | c :: rest, acc => parseJsonStrAux rest (c :: acc)

def digitsToNat (ds : List Char) : Nat :=
  ds.foldl (fun acc c => acc * 10 + (c.toNat - 48)) 0

def parseJsonNum (cs : List Char) : Option (PyVal × List Char) :=
  let (neg, cs1) := match cs with
    | '-' :: r => (true, r)
    | _ => (false, cs)
  let intDigits := cs1.takeWhile Char.isDigit
  let cs2 := cs1.dropWhile Char.isDigit
  if intDigits.isEmpty then Option.none
  else
    let iv : Nat := digitsToNat intDigits
    let (fracDigits, cs3) := match cs2 with
      | '.' :: r => (r.takeWhile Char.isDigit, r.dropWhile Char.isDigit)
      | _ => ([], cs2)
    let hasFrac := match cs2 with
      | '.' :: _ => true
      | _ => false
    if hasFrac && fracDigits.isEmpty then Option.none
    else
      let (hasExp, expNeg, expDigits, cs4) := match cs3 with
        | 'e' :: '-' :: r =>
            (true, true, r.takeWhile Char.isDigit, r.dropWhile Char.isDigit)
        | 'e' :: '+' :: r =>
            (true, false, r.takeWhile Char.isDigit, r.dropWhile Char.isDigit)
        | 'e' :: r =>
            (true, false, r.takeWhile Char.isDigit, r.dropWhile Char.isDigit)
        | 'E' :: '-' :: r =>
            (true, true, r.takeWhile Char.isDigit, r.dropWhile Char.isDigit)
        | 'E' :: '+' :: r =>
            (true, false, r.takeWhile Char.isDigit, r.dropWhile Char.isDigit)
        | 'E' :: r =>
            (true, false, r.takeWhile Char.isDigit, r.dropWhile Char.isDigit)
        | _ => (false, false, [], cs3)
      if hasExp && expDigits.isEmpty then Option.none
      else
        let num0 : Nat := iv * 10 ^ fracDigits.length + digitsToNat fracDigits
        let den0 : Nat := 10 ^ fracDigits.length
        let num1 : Nat :=
          if hasExp && !expNeg then num0 * 10 ^ digitsToNat expDigits else num0
        let den1 : Nat :=
          if hasExp && expNeg then den0 * 10 ^ digitsToNat expDigits else den0
        let signed : Int := if neg then -(num1 : Int) else (num1 : Int)
        if hasFrac || hasExp then some (.rat (mkRat signed den1), cs4)
        else some (.int (if neg then -(iv : Int) else (iv : Int)), cs4)

mutual

def parseJsonV : Nat → List Char → Option (PyVal × List Char)
  | 0, _ => Option.none
  | fuel + 1, cs =>
    match jsonSkipWs cs with
    | [] => Option.none
    | '{' :: rest =>
      (match jsonSkipWs rest with
       | '}' :: r2 => some (.dict [], r2)
       | r1 => parseJsonMembers fuel r1 [])
    | '[' :: rest =>
      (match jsonSkipWs rest with
       | ']' :: r2 => some (.list [], r2)
       | r1 => parseJsonElems fuel r1 [])
    | '"' :: rest => (parseJsonStrAux rest []).map (fun p => (.str p.1, p.2))
    | 't' :: 'r' :: 'u' :: 'e' :: r => some (.bool true, r)
    | 'f' :: 'a' :: 'l' :: 's' :: 'e' :: r => some (.bool false, r)
    | 'n' :: 'u' :: 'l' :: 'l' :: r => some (.none, r)
    | c :: r => if c = '-' || c.isDigit then parseJsonNum (c :: r) else Option.none

def parseJsonMembers : Nat → List Char → List (String × PyVal) →
    Option (PyVal × List Char)
  | 0, _, _ => Option.none
  | fuel + 1, cs, acc =>
    match jsonSkipWs cs with
    | '"' :: rest =>
      (match parseJsonStrAux rest [] with
       | Option.none => Option.none
       | some (k, r1) =>
         match jsonSkipWs r1 with
         | ':' :: r2 =>
           (match parseJsonV fuel r2 with
            | Option.none => Option.none
            | some (v, r3) =>
              match jsonSkipWs r3 with
              | ',' :: r4 => parseJsonMembers fuel r4 ((k, v) :: acc)
              | '}' :: r4 => some (.dict ((k, v) :: acc).reverse, r4)
              | _ => Option.none)
         | _ => Option.none)
    | _ => Option.none

def parseJsonElems : Nat → List Char → List PyVal →
    Option (PyVal × List Char)
  | 0, _, _ => Option.none
  | fuel + 1, cs, acc =>
    match parseJsonV fuel cs with
    | Option.none => Option.none
    | some (v, r1) =>
      match jsonSkipWs r1 with
      | ',' :: r2 => parseJsonElems fuel r2 (v :: acc)
      | ']' :: r2 => some (.list ((v :: acc).reverse), r2)
      | _ => Option.none

end

/-- `json.loads`: a decode must consume the whole input (up to trailing
whitespace). -/
def pyLoadJson (s : String) : Option PyVal :=
  match parseJsonV (s.data.length + 4) s.data with
  | some (v, rest) => if (jsonSkipWs rest).isEmpty then some v else Option.none
  | Option.none => Option.none

/-- Decoder validation on concrete texts. -/
theorem pyLoadJson_examples :
    pyLoadJson "[1, 2]" = some (.list [.int 1, .int 2]) ∧
    pyLoadJson "not json" = Option.none ∧
    pyLoadJson "\x7b\"a\": 1, \"b\": [true, null, \"x\"], \"c\": -2.5\x7d" =
      some (.dict [("a", .int 1),
                   ("b", .list [.bool true, .none, .str "x"]),
                   ("c", .rat (mkRat (-5) 2))]) := by
  refine ⟨rfl, rfl, rfl⟩

/-! ## Fenced-JSON extraction
(`re.search(r"```(?:json)?\s*(\{.*?\})\s*```", raw, re.DOTALL)`,
parsers.py line 31)

Leftmost match; the lazy group captures the shortest `{...}` whose
closing brace is followed by optional whitespace and three backticks. -/

def dropPyWsL (cs : List Char) : List Char := cs.dropWhile isPySpace

/-- Scan for the lazy closing brace: the first `}` followed (after
whitespace) by three backticks ends the capture. -/
def findCloseBrace : List Char → List Char → Option (List Char)
  | [], _ => Option.none
  | c :: cs, acc =>
    if c = '}' then
      match dropPyWsL cs with
      | '`' :: '`' :: '`' :: _ => some (('{' :: acc.reverse) ++ ['}'])
      | _ => findCloseBrace cs ('}' :: acc)
    else findCloseBrace cs (c :: acc)

/-- Try the fence pattern anchored at this position. -/
def matchFenceAt (l : List Char) : Option (List Char) :=
  match l with
  | '`' :: '`' :: '`' :: r1 =>
    let r2 := match r1 with
      | 'j' :: 's' :: 'o' :: 'n' :: rr => rr
      | _ => r1
    (match dropPyWsL r2 with
     | '{' :: r3 => findCloseBrace r3 []
     | _ => Option.none)
  | _ => Option.none

def extractSearchAux : List Char → Option (List Char)
  | [] => Option.none
  | c :: cs =>
    match matchFenceAt (c :: cs) with
    | some cap => some cap
    | Option.none => extractSearchAux cs

/-- Group 1 of the leftmost match, when the pattern matches. -/
def extractFencedJson (s : String) : Option String :=
  (extractSearchAux s.data).map (fun l => ⟨l⟩)

theorem extractFencedJson_examples :
    extractFencedJson "```json\n\x7b\"overall\": \"PASS\"\x7d\n```" =
      some "\x7b\"overall\": \"PASS\"\x7d" ∧
    extractFencedJson "[1, 2]" = Option.none := by
  refine ⟨rfl, rfl⟩

/-! ## `parse_critique` (parsers.py lines 26-53)

The `try` block covers `json.loads` *and* `Critique.from_dict`, but the
`except` clause catches only `json.JSONDecodeError`.  When the input
decodes to a non-object JSON value (list, number, string, null),
`Critique.from_dict` calls `.get` on it and raises `AttributeError`,
which escapes `parse_critique`; the embedding returns `.error` for that
uncaught exception.  The embedded failure summary stands for Python's
formatted `f"Failed to parse critique: {e}"`. -/

def parseCritique (raw : String) (agentName constraintId : String)
    (iteration : Int) : Except String Critique :=
  let raw1 := pyStrip raw
  let raw2 := match extractFencedJson raw1 with
    | some block => block
    | Option.none => raw1
  match pyLoadJson raw2 with
  | Option.none =>
      -- json.JSONDecodeError: caught, sentinel critique returned
      .ok { constraint_id := constraintId, reviewer := agentName,
            iteration := iteration, overall := "ERROR", issues := [],
            approved_sections := [],
            summary := "Failed to parse critique: JSONDecodeError" }
  | some (.dict d) =>
      (match Critique.fromDict d with
       | .ok c => .ok { c with reviewer := agentName,
                               constraint_id := constraintId,
                               iteration := iteration }
       | .error e => .error e)
  | some _ =>
      -- AttributeError from .get on a non-dict: not caught, escapes
      .error "AttributeError: .get on non-object JSON value"

/-- C8: on input whose extracted block fails to decode as JSON,
`parse_critique` returns the sentinel ERROR critique with the failure
message as summary and the given reviewer/constraint/iteration — but on
input that decodes to a non-object JSON value it raises (uncaught
`AttributeError`) instead of returning a value, so "never raises" does
not hold of the code. -/
theorem parseCritique_spec :
    (∀ raw agentName constraintId iteration,
       pyLoadJson (match extractFencedJson (pyStrip raw) with
                   | some block => block
                   | Option.none => pyStrip raw) = Option.none →
       parseCritique raw agentName constraintId iteration =
         .ok { constraint_id := constraintId, reviewer := agentName,
               iteration := iteration, overall := "ERROR", issues := [],
               approved_sections := [],
               summary := "Failed to parse critique: JSONDecodeError" }) ∧
    parseCritique "[1, 2]" "codex" "safety" 1 =
      .error "AttributeError: .get on non-object JSON value" := by
  constructor
  · intro raw agentName constraintId iteration h
    simp only [parseCritique, h]
  · rfl

/-- Witness for C8: a non-JSON reply yields the sentinel ERROR critique
carrying the reviewer, constraint id and iteration it was called with. -/
theorem parseCritique_spec_witness :
    parseCritique "I could not produce JSON today" "gemini" "tone" 2 =
      .ok { constraint_id := "tone", reviewer := "gemini",
            iteration := 2, overall := "ERROR", issues := [],
            approved_sections := [],
            summary := "Failed to parse critique: JSONDecodeError" } :=
  parseCritique_spec.1 "I could not produce JSON today" "gemini" "tone" 2
    (by rfl)

/-! ## `utils.sha256` (utils.py lines 115-117)

`hashlib.sha256(s.encode("utf-8")).hexdigest()[:16]`.  SHA-256 is
implemented bit-faithfully (FIPS 180-4) over `Nat` with explicit
`% 2^32` arithmetic; `strBytes` is UTF-8 encoding restricted to the
ASCII strings (timestamps, JSON records) this system hashes.  The
implementation is validated below against the standard test vectors. -/

def w32 (n : Nat) : Nat := n % 4294967296

def rotr (x n : Nat) : Nat := w32 ((x >>> n) ||| (x <<< (32 - n)))

def bsig0 (x : Nat) : Nat := (rotr x 2) ^^^ (rotr x 13) ^^^ (rotr x 22)
def bsig1 (x : Nat) : Nat := (rotr x 6) ^^^ (rotr x 11) ^^^ (rotr x 25)
def ssig0 (x : Nat) : Nat := (rotr x 7) ^^^ (rotr x 18) ^^^ (x >>> 3)
def ssig1 (x : Nat) : Nat := (rotr x 17) ^^^ (rotr x 19) ^^^ (x >>> 10)

/-- The 64 SHA-256 round constants (fractional cube roots of the first
64 primes), in decimal. -/
def K256 : List Nat :=
  [1116352408, 1899447441, 3049323471, 3921009573, 961987163,
   1508970993, 2453635748, 2870763221, 3624381080, 310598401,
   607225278, 1426881987, 1925078388, 2162078206, 2614888103,
   3248222580, 3835390401, 4022224774, 264347078, 604807628,
   770255983, 1249150122, 1555081692, 1996064986, 2554220882,
   2821834349, 2952996808, 3210313671, 3336571891, 3584528711,
   113926993, 338241895, 666307205, 773529912, 1294757372,
   1396182291, 1695183700, 1986661051, 2177026350, 2456956037,
   2730485921, 2820302411, 3259730800, 3345764771, 3516065817,
   3600352804, 4094571909, 275423344, 430227734, 506948616,
   659060556, 883997877, 958139571, 1322822218, 1537002063,
   1747873779, 1955562222, 2024104815, 2227730452, 2361852424,
   2428436474, 2756734187, 3204031479, 3329325298]

/-- The SHA-256 initial hash state (fractional square roots of the first
8 primes), in decimal. -/
def H0256 : List Nat :=
  [1779033703, 3144134277, 1013904242, 2773480762,
   1359893119, 2600822924, 528734635, 1541459225]

def toBytesBE (n k : Nat) : List Nat :=
  ((List.range k).reverse).map (fun i => (n >>> (8 * i)) % 256)

def sha256pad (msg : List Nat) : List Nat :=
  let L := msg.length
  let zeros := (119 - (L % 64)) % 64
  msg ++ 0x80 :: (List.replicate zeros 0 ++ toBytesBE (8 * L) 8)

def bytesToWords : List Nat → List Nat
  | b0 :: b1 :: b2 :: b3 :: rest =>
      (((b0 * 256 + b1) * 256 + b2) * 256 + b3) :: bytesToWords rest
  | _ => []

def chunks16F : Nat → List Nat → List (List Nat)
  | 0, _ => []
  | _, [] => []
  | fuel + 1, ws => ws.take 16 :: chunks16F fuel (ws.drop 16)

def extendW (w : List Nat) : Nat → List Nat
  | 0 => w
  | f + 1 =>
      let i := w.length
      let nw := w32 (ssig1 (w.getD (i - 2) 0) + w.getD (i - 7) 0 +
        ssig0 (w.getD (i - 15) 0) + w.getD (i - 16) 0)
      extendW (w ++ [nw]) f

def sha256round (st : List Nat) (kw : Nat × Nat) : List Nat :=
  match st with
  | [a, b, c, d, e, f, g, h] =>
    let S1 := bsig1 e
    let ch := (e &&& f) ^^^ ((e ^^^ 4294967295) &&& g)
    let temp1 := w32 (h + S1 + ch + kw.1 + kw.2)
    let S0 := bsig0 a
    let maj := (a &&& b) ^^^ (a &&& c) ^^^ (b &&& c)
    let temp2 := w32 (S0 + maj)
    [w32 (temp1 + temp2), a, b, c, w32 (d + temp1), e, f, g]
  | _ => st

def compressBlock (h : List Nat) (block : List Nat) : List Nat :=
  let w := extendW block 48
  let st := (K256.zip w).foldl sha256round h
  (h.zip st).map (fun p => w32 (p.1 + p.2))

def strBytes (s : String) : List Nat := s.data.map (fun c => c.toNat)

def sha256bytes (msg : List Nat) : List Nat :=
  let ws := bytesToWords (sha256pad msg)
  let blocks := chunks16F (ws.length + 1) ws
  let hfinal := blocks.foldl compressBlock H0256
  hfinal.foldr (fun w acc => toBytesBE w 4 ++ acc) []

def hexDigit (n : Nat) : Char := "0123456789abcdef".data.getD n '0'

def byteHex (b : Nat) : String := ⟨[hexDigit (b / 16), hexDigit (b % 16)]⟩

def sha256hex (s : String) : String :=
  String.join ((sha256bytes (strBytes s)).map byteHex)

/-- `utils.sha256`: the hex digest truncated to 16 characters. -/
def sha256trunc (s : String) : String := ⟨(sha256hex s).data.take 16⟩

/-- FIPS 180-4 test vectors. -/
theorem sha256hex_vectors :
    sha256hex "abc" =
      "ba7816bf8f01cfea414140de5dae2223b00361a396177a9cb410ff61f20015ad" ∧
    sha256hex "" =
      "e3b0c44298fc1c149afbf4c8996fb92427ae41e4649b934ca495991b7852b855" := by
  refine ⟨by decide, by decide⟩

/-! ## HITL answer ingestion (hitl.py lines 17-31 and arena.py lines
1833-1856)

```python
def ingest_hitl_answers(state_dir: Path) -> Optional[Dict[str, Any]]:
    answers_path = state_dir / "hitl" / "answers.json"
    if not answers_path.exists():
        return None
    answers = load_json(answers_path, None)
    if not answers:
        return None
    processed_path = state_dir / "hitl" / f"answers_{sha256(utc_now_iso())}.processed.json"
    answers_path.rename(processed_path)
    return answers
```

The hitl directory is modelled by the answer file's content (when
present) and the archived files; `now` is the `utc_now_iso()` timestamp
at ingest time; `load_json` is `pyLoadJson` with default `None`, and
`if not answers` is Python truthiness. -/

structure HitlDir where
  answersFile : Option String
  processedFiles : List (String × String)

def pyTruthy : PyVal → Bool
  | .none => false
  | .bool b => b
  | .int n => n != 0
  | .rat q => q != 0
  | .str s => !s.isEmpty
  | .list l => !l.isEmpty
  | .dict d => !d.isEmpty

def ingestHitlAnswers (d : HitlDir) (now : String) : Option PyVal × HitlDir :=
  match d.answersFile with
  | Option.none => (Option.none, d)
  | some content =>
    match pyLoadJson content with
    | Option.none => (Option.none, d)   -- invalid JSON: default None, no archive
    | some v =>
      if pyTruthy v then
        (some v,
         { answersFile := Option.none,
           processedFiles :=
             ("answers_" ++ sha256trunc now ++ ".processed.json", content)
               :: d.processedFiles })
      else (Option.none, d)

/-- Exit codes (arena.py lines 98-101). -/
def EXIT_OK : Nat := 0
def EXIT_HITL : Nat := 10

inductive HitlResumeOutcome where
  | proceed (awaiting : Bool) (d : HitlDir) (answers : Option PyVal)
  | exitWith (code : Nat)

/-- The orchestrator's HITL-resume check: when the pending flag is set,
ingest; on answers, clear the flag and proceed; on none, re-report
"still awaiting" and exit with the HITL status. -/
def orchestratorHitlResume (awaiting : Bool) (d : HitlDir) (now : String) :
    HitlResumeOutcome :=
  if awaiting then
    match ingestHitlAnswers d now with
    | (some a, d') => .proceed false d' (some a)
    | (Option.none, _) => .exitWith EXIT_HITL
  else .proceed awaiting d Option.none

/-- Counterexample to C9 as stated: the archived file name embeds the
truncated SHA-256 of the ingest *timestamp*, not of the file's content —
at a concrete content and timestamp the two names differ.  (The file is
still archived, never deleted.) -/
theorem ingest_archives_with_timestamp_hash :
    (ingestHitlAnswers
      { answersFile := some "\x7b\"answers\": [\x7b\"question_id\": \"q1\", \"answer\": \"yes\"\x7d]\x7d",
        processedFiles := [] }
      "2026-01-01T00:00:00+00:00").2.processedFiles =
      [("answers_" ++ sha256trunc "2026-01-01T00:00:00+00:00" ++
          ".processed.json",
        "\x7b\"answers\": [\x7b\"question_id\": \"q1\", \"answer\": \"yes\"\x7d]\x7d")] ∧
    "answers_" ++ sha256trunc "2026-01-01T00:00:00+00:00" ++
        ".processed.json" ≠
      "answers_" ++
        sha256trunc
          "\x7b\"answers\": [\x7b\"question_id\": \"q1\", \"answer\": \"yes\"\x7d]\x7d" ++
        ".processed.json" := by
  refine ⟨by rfl, by decide⟩

/-- C9 (amended): if the answer file exists and holds a record that
parses and is non-empty, ingest returns the parsed record and archives
the file by renaming it with a truncated SHA-256 of the ingest timestamp
(the content is preserved, never deleted), after which the orchestrator
clears the pending flag; if the answer file is absent, ingest returns
None without error, the directory is untouched, and the orchestrator
exits with the dedicated HITL status 10. -/
theorem ingestHitlAnswers_spec :
    (∀ d now content v, d.answersFile = some content →
       pyLoadJson content = some v → pyTruthy v = true →
       ingestHitlAnswers d now =
         (some v,
          { answersFile := Option.none,
            processedFiles :=
              ("answers_" ++ sha256trunc now ++ ".processed.json", content)
                :: d.processedFiles }) ∧
       orchestratorHitlResume true d now =
         .proceed false
           { answersFile := Option.none,
             processedFiles :=
               ("answers_" ++ sha256trunc now ++ ".processed.json", content)
                 :: d.processedFiles }
           (some v)) ∧
    (∀ d now, d.answersFile = Option.none →
       ingestHitlAnswers d now = (Option.none, d) ∧
       orchestratorHitlResume true d now = .exitWith 10) := by
  constructor
  · intro d now content v hfile hparse htruthy
    have hing : ingestHitlAnswers d now =
        (some v,
         { answersFile := Option.none,
           processedFiles :=
             ("answers_" ++ sha256trunc now ++ ".processed.json", content)
               :: d.processedFiles }) := by
      simp [ingestHitlAnswers, hfile, hparse, htruthy]
    exact ⟨hing, by simp [orchestratorHitlResume, hing]⟩
  · intro d now hfile
    have hing : ingestHitlAnswers d now = (Option.none, d) := by
      simp [ingestHitlAnswers, hfile]
    exact ⟨hing, by simp [orchestratorHitlResume, hing, EXIT_HITL]⟩

/-- Witness for C9 (amended): both branches at concrete directories. -/
theorem ingestHitlAnswers_spec_witness :
    (ingestHitlAnswers
        { answersFile := some "\x7b\"answers\": \"use option 2\"\x7d",
          processedFiles := [] } "2026-01-01T00:00:00+00:00" =
      (some (.dict [("answers", .str "use option 2")]),
       { answersFile := Option.none,
         processedFiles :=
           [("answers_" ++ sha256trunc "2026-01-01T00:00:00+00:00" ++
               ".processed.json",
             "\x7b\"answers\": \"use option 2\"\x7d")] }) ∧
     orchestratorHitlResume true
        { answersFile := some "\x7b\"answers\": \"use option 2\"\x7d",
          processedFiles := [] } "2026-01-01T00:00:00+00:00" =
      .proceed false
        { answersFile := Option.none,
          processedFiles :=
            [("answers_" ++ sha256trunc "2026-01-01T00:00:00+00:00" ++
                ".processed.json",
              "\x7b\"answers\": \"use option 2\"\x7d")] }
        (some (.dict [("answers", .str "use option 2")]))) ∧
    (ingestHitlAnswers
        { answersFile := Option.none, processedFiles := [] }
        "2026-01-01T00:00:00+00:00" =
      (Option.none,
       { answersFile := Option.none, processedFiles := [] }) ∧
     orchestratorHitlResume true
        { answersFile := Option.none, processedFiles := [] }
        "2026-01-01T00:00:00+00:00" = .exitWith 10) :=
  ⟨ingestHitlAnswers_spec.1
      { answersFile := some "\x7b\"answers\": \"use option 2\"\x7d",
        processedFiles := [] }
      "2026-01-01T00:00:00+00:00" "\x7b\"answers\": \"use option 2\"\x7d"
      (.dict [("answers", .str "use option 2")]) rfl (by rfl) (by rfl),
   ingestHitlAnswers_spec.2
      { answersFile := Option.none, processedFiles := [] }
      "2026-01-01T00:00:00+00:00" rfl⟩

end Arena
